import Mathlib

/-!
Verification of the `persian-slugify` bot (`src/main.py`) against its
specification.  Strings are embedded as lists of Unicode code points
(`List Nat`); the per-user session map `user_data` is embedded as a
function `Nat → Option UserSession`.  All definitions are translated
from the Python source; the one exception is `normalize_spec`, which
follows the wording of spec §4.1 and is compared with the source
pipeline in the refinement theorem for C1.
-/

/-- Code points of a Lean string literal, used to write concrete inputs. -/
def strToCodes (s : String) : List Nat := s.data.map Char.toNat

/-- Python `str.lower()` on a single code point, as simple ASCII case folding
(`A`–`Z` map to `a`–`z`, everything else is fixed); spec §4.1 step 1 fixes
lower-casing to be ASCII-equivalent with no locale rules. -/
def lowerCode (n : Nat) : Nat := if 65 ≤ n ∧ n ≤ 90 then n + 32 else n

/-- `translated_text.lower()` from `src/main.py` line 126. -/
def pyLower (s : List Nat) : List Nat := s.map lowerCode

/-- `.replace(" ", separator)` from `src/main.py` line 126: every occurrence of
the space character (code 32) is replaced by the separator string. -/
def pyReplaceSpace (sep : List Nat) : List Nat → List Nat
  | [] => []
  | c :: cs => if c = 32 then sep ++ pyReplaceSpace sep cs else c :: pyReplaceSpace sep cs

/-- The character class of the regex `[a-zA-Z0-9\-_]` from `src/main.py`
line 127 (`a`–`z`, `A`–`Z`, `0`–`9`, `-`, `_`). -/
def allowedCode (n : Nat) : Bool :=
  (97 ≤ n && n ≤ 122) || (65 ≤ n && n ≤ 90) || (48 ≤ n && n ≤ 57) || n == 45 || n == 95

/-- The slug pipeline of `translate_and_format` (`src/main.py` lines 126–127):
lower-case the translated text, replace spaces by the separator, then
`re.sub(r"[^a-zA-Z0-9\-_]", "", ...)` deletes every character outside the
allowed class. -/
def translate_and_format_slug (translated separator : List Nat) : List Nat :=
  (pyReplaceSpace separator (pyLower translated)).filter allowedCode

/-- An ASCII letter, in the wording of spec §4.1 step 3. -/
def isAsciiLetter (n : Nat) : Bool := (65 ≤ n && n ≤ 90) || (97 ≤ n && n ≤ 122)

/-- An ASCII digit, in the wording of spec §4.1 step 3. -/
def isAsciiDigit (n : Nat) : Bool := 48 ≤ n && n ≤ 57

/-- The allowed set of spec §4.1 step 3: an ASCII letter, an ASCII digit,
`-`, or `_`. -/
def specAllowed (n : Nat) : Bool := isAsciiLetter n || isAsciiDigit n || n == 45 || n == 95

/-- The three-step reference pipeline of spec §4.1, written from the spec's
words: (1) lower-case the input, (2) replace every space character with the
separator, (3) delete every character not in the allowed set, preserving
order. -/
def normalize_spec (s sep : List Nat) : List Nat :=
  let lowered := s.map lowerCode
  let replaced := lowered.flatMap (fun c => if c = 32 then sep else [c])
  replaced.filter specAllowed

theorem pyReplaceSpace_eq_bind (sep : List Nat) (l : List Nat) :
    pyReplaceSpace sep l = l.flatMap (fun c => if c = 32 then sep else [c]) := by
  induction l with
  | nil => rfl
  | cons c cs ih =>
      simp only [pyReplaceSpace, List.flatMap_cons, ih]
      by_cases h : c = 32 <;> simp [h]

theorem allowedCode_eq_specAllowed (n : Nat) : allowedCode n = specAllowed n := by
  simp only [allowedCode, specAllowed, isAsciiLetter, isAsciiDigit]
  rw [Bool.eq_iff_iff]
  simp only [Bool.or_eq_true, Bool.and_eq_true, decide_eq_true_eq, beq_iff_eq]
  tauto

/-- C1: the slug normalizer of the source equals the spec's three-step
reference pipeline; moreover the documented example holds, consecutive
separators are not collapsed, and leading/trailing separators are not
trimmed. -/
theorem C1_normalize_refines_spec_pipeline :
    (∀ s sep : List Nat, translate_and_format_slug s sep = normalize_spec s sep)
    ∧ translate_and_format_slug (strToCodes "Hello, World!!") (strToCodes "-")
        = strToCodes "hello-world"
    ∧ translate_and_format_slug (strToCodes "a  b!") (strToCodes "-")
        = strToCodes "a--b"
    ∧ translate_and_format_slug (strToCodes " x ") (strToCodes "-")
        = strToCodes "-x-" := by
  refine ⟨fun s sep => ?_, by decide, by decide, by decide⟩
  simp only [translate_and_format_slug, normalize_spec, pyLower,
    pyReplaceSpace_eq_bind]
  exact List.filter_congr fun c _ => allowedCode_eq_specAllowed c

/-- Python whitespace, as stripped by `str.strip()` with no argument
(the code points for which `str.isspace()` holds). -/
def pyIsSpace (n : Nat) : Bool :=
  (9 ≤ n && n ≤ 13) || (28 ≤ n && n ≤ 31) || n == 32 || n == 133 || n == 160 ||
  n == 5760 || (8192 ≤ n && n ≤ 8202) || n == 8232 || n == 8233 || n == 8239 ||
  n == 8287 || n == 12288

/-- Python `str.strip()`: remove leading and trailing whitespace. -/
def pyStrip (s : List Nat) : List Nat :=
  ((s.dropWhile pyIsSpace).reverse.dropWhile pyIsSpace).reverse

/-- A user's session, the per-user dictionary stored in `user_data`
(`src/main.py` line 35): a `"separator"` entry and an optional `"history"`
entry (the `"history"` key is only created on the first successful
translation, `src/main.py` lines 99–100). -/
structure UserSession where
  separator : List Nat
  history : Option (List (List Nat × List Nat))
deriving DecidableEq

/-- The global session map `user_data` (`src/main.py` line 35). -/
abbrev Store := Nat → Option UserSession

/-- Dictionary assignment `user_data[u] = s`. -/
def updateStore (store : Store) (u : Nat) (s : UserSession) : Store :=
  fun v => if v = u then some s else store v

/-- The empty `user_data` map at process start. -/
def emptyStore : Store := fun _ => none

/-- The fresh session `{"separator": "-"}` created by `handle_message`
(`src/main.py` line 93) and by `reset_preferences` (line 151). -/
def defaultSession : UserSession := { separator := [45], history := none }

/-- The history entries of a session; a missing `"history"` key reads as the
empty history (as in the `/history` handler, `src/main.py` lines 77–82). -/
def histOf (s : UserSession) : List (List Nat × List Nat) := s.history.getD []

/-- The separator a message from user `u` would be slugified with: the stored
one, or the default `-` that `handle_message` creates for a fresh user. -/
def sepOf (store : Store) (u : Nat) : List Nat :=
  match store u with
  | some s => s.separator
  | none => [45]

/-- The history user `u` would see from `/history`: the stored entries, or
none for a fresh user. -/
def historyOf (store : Store) (u : Nat) : List (List Nat × List Nat) :=
  match store u with
  | some s => histOf s
  | none => []

/-- Outcome of the `set_separator` handler: the confirmation path, the
re-prompt path, or the uncaught `KeyError` from `user_data[user_id]` when the
user has no session. -/
inductive SetSepResult
  | success
  | invalid
  | keyError
deriving DecidableEq

/-- The `set_separator` handler (`src/main.py` lines 154–165): strip the
message text; if the result is not exactly one character or not in
`("-", "_")`, re-prompt and stay in `AWAITING_SEPARATOR`; otherwise assign
`user_data[user_id]["separator"]`, which raises `KeyError` when `user_id` is
not in `user_data`.  Returns the outcome and the session map afterwards. -/
def set_separator (store : Store) (u : Nat) (text : List Nat) :
    SetSepResult × Store :=
  let new_separator := pyStrip text
  if new_separator.length ≠ 1 ∨ new_separator ∉ ([[45], [95]] : List (List Nat)) then
    (.invalid, store)
  else
    match store u with
    | none => (.keyError, store)
    | some sess => (.success, updateStore store u { sess with separator := new_separator })

/-- The `reset_preferences` branch of `button_callback` (`src/main.py`
lines 149–151): `user_data[user_id] = {"separator": "-"}`. -/
def reset_preferences (store : Store) (u : Nat) : Store :=
  updateStore store u defaultSession

/-- The reply `handle_message` sends: the original/slug message on success, or
the generic `"❌ An error occurred. Please try again later."` text — which
carries no detail of the provider failure — on any exception. -/
inductive Reply
  | slugReply (original slug : List Nat)
  | genericError
deriving DecidableEq

/-- `translate_and_format` (`src/main.py` lines 122–131): the provider call
`translator.translate(...)` is an external collaborator, embedded as its
outcome `translation` (translated text, or a failure with provider detail);
on success the slug pipeline runs, on failure the exception is re-raised. -/
def translate_and_format (translation : Except (List Nat) (List Nat))
    (separator : List Nat) : Except (List Nat) (List Nat) :=
  match translation with
  | .ok t => .ok (translate_and_format_slug t separator)
  | .error e => .error e

/-- The state and reply after `handle_message` runs. -/
structure HandleResult where
  store : Store
  reply : Reply

/-- The `handle_message` handler (`src/main.py` lines 87–120): strip the
message, create the session `{"separator": "-"}` if absent, call
`translate_and_format` with the stored separator; on success append
`{"original": ..., "slug": ...}` to the history (creating the `"history"`
key if needed) and reply with the slug; on exception reply with the generic
error text. -/
def handle_message (store : Store) (u : Nat) (text : List Nat)
    (translation : Except (List Nat) (List Nat)) : HandleResult :=
  let headline := pyStrip text
  let created :=
    match store u with
    | some s => (s, store)
    | none => (defaultSession, updateStore store u defaultSession)
  let sess := created.1
  let store1 := created.2
  match translate_and_format translation sess.separator with
  | .error _ => { store := store1, reply := .genericError }
  | .ok slug =>
      let sess1 := { sess with history := some (histOf sess ++ [(headline, slug)]) }
      { store := updateStore store1 u sess1, reply := .slugReply headline slug }

/-- The two conversation states of the separator-customization flow
(`src/main.py` line 32 and the `ConversationHandler` wiring at
lines 189–195); `IDLE` is "not inside the conversation"
(`ConversationHandler.END`). -/
inductive ConvState
  | IDLE
  | AWAITING_SEPARATOR
deriving DecidableEq

/-- The inbound events the separator-customization flow reacts to: the
inline-button payloads handled by `button_callback` (`src/main.py`
lines 133–152), a plain text message while awaiting the separator (routed
to `set_separator`), and the `/cancel` fallback. -/
inductive ConvEvent
  | pressCustomize
  | pressChangeSeparator
  | pressRetranslate
  | pressCopySlug
  | pressResetPreferences
  | sendSeparatorText (text : List Nat)
  | sendCancel

/-- The uncaught error a handler can raise (the `KeyError` of
`set_separator`, see `SetSepResult.keyError`). -/
inductive StepError
  | keyError
deriving DecidableEq

/-- One step of the conversation controller, from `button_callback`
(`src/main.py` lines 133–152), `set_separator` (154–165), `cancel`
(167–170) and the `ConversationHandler` wiring (189–195): `customize` and
`change_separator` enter `AWAITING_SEPARATOR`; while awaiting, text goes to
`set_separator` (`END` on success, stay on invalid input) and `/cancel`
ends the conversation; `retranslate`, `copy_slug` and `reset_preferences`
are one-shot actions that do not change the conversation state. -/
def conversationStep (cs : ConvState) (store : Store) (u : Nat) (ev : ConvEvent) :
    Except StepError (ConvState × Store) :=
  match cs, ev with
  | .IDLE, .pressCustomize => .ok (.AWAITING_SEPARATOR, store)
  | .IDLE, .pressChangeSeparator => .ok (.AWAITING_SEPARATOR, store)
  | .IDLE, .pressRetranslate => .ok (.IDLE, store)
  | .IDLE, .pressCopySlug => .ok (.IDLE, store)
  | .IDLE, .pressResetPreferences => .ok (.IDLE, reset_preferences store u)
  | .IDLE, .sendSeparatorText _ => .ok (.IDLE, store)
  | .IDLE, .sendCancel => .ok (.IDLE, store)
  | .AWAITING_SEPARATOR, .sendSeparatorText t =>
      match set_separator store u t with
      | (.success, store1) => .ok (.IDLE, store1)
      | (.invalid, store1) => .ok (.AWAITING_SEPARATOR, store1)
      | (.keyError, _) => .error .keyError
  | .AWAITING_SEPARATOR, .sendCancel => .ok (.IDLE, store)
  | .AWAITING_SEPARATOR, .pressRetranslate => .ok (.AWAITING_SEPARATOR, store)
  | .AWAITING_SEPARATOR, .pressCopySlug => .ok (.AWAITING_SEPARATOR, store)
  | .AWAITING_SEPARATOR, .pressCustomize => .ok (.AWAITING_SEPARATOR, store)
  | .AWAITING_SEPARATOR, .pressChangeSeparator => .ok (.AWAITING_SEPARATOR, store)
  | .AWAITING_SEPARATOR, .pressResetPreferences =>
      .ok (.AWAITING_SEPARATOR, reset_preferences store u)

theorem set_separator_valid (store : Store) (u : Nat) (text : List Nat)
    (sess : UserSession) (hu : store u = some sess)
    (hv : pyStrip text = [45] ∨ pyStrip text = [95]) :
    set_separator store u text
      = (.success, updateStore store u { sess with separator := pyStrip text }) := by
  have hcond : ¬((pyStrip text).length ≠ 1 ∨
      pyStrip text ∉ ([[45], [95]] : List (List Nat))) := by
    rcases hv with h | h <;> simp [h]
  simp only [set_separator]
  rw [if_neg hcond, hu]

theorem set_separator_invalid (store : Store) (u : Nat) (text : List Nat)
    (hv : ¬(pyStrip text = [45] ∨ pyStrip text = [95])) :
    set_separator store u text = (.invalid, store) := by
  have hcond : (pyStrip text).length ≠ 1 ∨
      pyStrip text ∉ ([[45], [95]] : List (List Nat)) := by
    right
    simpa using hv
  simp only [set_separator]
  rw [if_pos hcond]

theorem set_separator_no_session (store : Store) (u : Nat) (text : List Nat)
    (hu : store u = none)
    (hv : pyStrip text = [45] ∨ pyStrip text = [95]) :
    set_separator store u text = (.keyError, store) := by
  have hcond : ¬((pyStrip text).length ≠ 1 ∨
      pyStrip text ∉ ([[45], [95]] : List (List Nat))) := by
    rcases hv with h | h <;> simp [h]
  simp only [set_separator]
  rw [if_neg hcond, hu]

theorem mem_pyReplaceSpace (sep l : List Nat) (c : Nat)
    (h : c ∈ pyReplaceSpace sep l) : c ∈ sep ∨ c ∈ l := by
  induction l with
  | nil => simp [pyReplaceSpace] at h
  | cons d ds ih =>
      simp only [pyReplaceSpace] at h
      by_cases hd : d = 32
      · rw [if_pos hd] at h
        rcases List.mem_append.mp h with h | h
        · exact .inl h
        · rcases ih h with h | h
          · exact .inl h
          · exact .inr (List.mem_cons_of_mem _ h)
      · rw [if_neg hd] at h
        rcases List.mem_cons.mp h with h | h
        · exact .inr (h ▸ List.mem_cons_self d ds)
        · rcases ih h with h | h
          · exact .inl h
          · exact .inr (List.mem_cons_of_mem _ h)

theorem lowerCode_not_upper (d : Nat) : ¬(65 ≤ lowerCode d ∧ lowerCode d ≤ 90) := by
  unfold lowerCode
  split <;> omega

theorem slug_output_codes (s sep : List Nat) (hsep : sep = [45] ∨ sep = [95]) :
    ∀ c ∈ translate_and_format_slug s sep,
      (97 ≤ c ∧ c ≤ 122) ∨ (48 ≤ c ∧ c ≤ 57) ∨ c = 45 ∨ c = 95 := by
  intro c hc
  rw [translate_and_format_slug, List.mem_filter] at hc
  obtain ⟨hmem, hallow⟩ := hc
  have hallow' : (97 ≤ c ∧ c ≤ 122) ∨ (65 ≤ c ∧ c ≤ 90) ∨ (48 ≤ c ∧ c ≤ 57)
      ∨ c = 45 ∨ c = 95 := by
    have := hallow
    simp only [allowedCode, Bool.or_eq_true, Bool.and_eq_true,
      decide_eq_true_eq, beq_iff_eq] at this
    tauto
  have hnotup : ¬(65 ≤ c ∧ c ≤ 90) := by
    rcases mem_pyReplaceSpace sep _ c hmem with h | h
    · rcases hsep with hs | hs <;> subst hs <;> simp at h <;> omega
    · obtain ⟨d, _, hd⟩ := List.mem_map.mp h
      exact hd ▸ lowerCode_not_upper d
  tauto

theorem pyLower_eq_self (l : List Nat) (h : ∀ c ∈ l, lowerCode c = c) :
    pyLower l = l := by
  induction l with
  | nil => rfl
  | cons d ds ih =>
      simp only [pyLower, List.map_cons]
      rw [h d (List.mem_cons_self d ds)]
      have := ih fun c hc => h c (List.mem_cons_of_mem _ hc)
      simp only [pyLower] at this
      rw [this]

theorem pyReplaceSpace_eq_self (sep l : List Nat) (h : ∀ c ∈ l, c ≠ 32) :
    pyReplaceSpace sep l = l := by
  induction l with
  | nil => rfl
  | cons d ds ih =>
      simp only [pyReplaceSpace]
      rw [if_neg (h d (List.mem_cons_self d ds))]
      rw [ih fun c hc => h c (List.mem_cons_of_mem _ hc)]

/-- C5: for every input and every allowed separator, every character of the
slug is an ASCII lower-case letter, an ASCII digit, `-`, or `_`. -/
theorem C5_output_alphabet (s sep : List Nat) (hsep : sep = [45] ∨ sep = [95]) :
    ∀ c ∈ translate_and_format_slug s sep,
      (97 ≤ c ∧ c ≤ 122) ∨ (48 ≤ c ∧ c ≤ 57) ∨ c = 45 ∨ c = 95 :=
  slug_output_codes s sep hsep

/-- Witness for C5 at a concrete input, separator and output character. -/
theorem C5_output_alphabet_witness :
    97 ∈ translate_and_format_slug (strToCodes "Ab c!") [45]
    ∧ ((97 ≤ 97 ∧ 97 ≤ 122) ∨ (48 ≤ 97 ∧ 97 ≤ 57) ∨ 97 = 45 ∨ 97 = 95) :=
  ⟨by decide,
   C5_output_alphabet (strToCodes "Ab c!") [45] (Or.inl rfl) 97 (by decide)⟩

/-- C4: with an allowed separator, the slug normalizer is a fixed point under
re-application with the same separator. -/
theorem C4_normalize_fixed_point (s sep : List Nat) (hsep : sep = [45] ∨ sep = [95]) :
    translate_and_format_slug (translate_and_format_slug s sep) sep
      = translate_and_format_slug s sep := by
  have hout := slug_output_codes s sep hsep
  conv_lhs => rw [translate_and_format_slug]
  rw [pyLower_eq_self _ fun c hc => ?_, pyReplaceSpace_eq_self _ _ fun c hc => ?_,
    List.filter_eq_self.mpr fun c hc => ?_]
  · rcases hout c hc with h | h | h | h <;> simp [allowedCode] <;> omega
  · rcases hout c hc with h | h | h | h <;> omega
  · unfold lowerCode
    rcases hout c hc with h | h | h | h <;> rw [if_neg (by omega)]

/-- Witness for C4 at a concrete input and separator. -/
theorem C4_normalize_fixed_point_witness :
    translate_and_format_slug (translate_and_format_slug (strToCodes "He y!") [45]) [45]
      = translate_and_format_slug (strToCodes "He y!") [45] :=
  C4_normalize_fixed_point (strToCodes "He y!") [45] (Or.inl rfl)

/-- C2 counterexample: the claim "accepts a value if and only if it is exactly
one character from {-, _}" fails as stated, because `set_separator` strips the
message first: the three-character input `" - "` is accepted. -/
theorem C2_counterexample_strip_accepted :
    (set_separator (updateStore emptyStore 1 defaultSession) 1 (strToCodes " - ")).1
      = SetSepResult.success
    ∧ (strToCodes " - ").length = 3 := by
  constructor
  · rfl
  · rfl

/-- C2 (amended): `set_separator` accepts a message if and only if its
whitespace-stripped text is exactly one character from {-, _}; on success it
stores the stripped separator, and on failure it returns a validation error
and leaves the session map — in particular the previously stored
separator — unchanged. -/
theorem C2_set_separator_validation (store : Store) (u : Nat) (text : List Nat)
    (sess : UserSession) (hu : store u = some sess) :
    ((pyStrip text = [45] ∨ pyStrip text = [95]) →
      set_separator store u text
        = (.success, updateStore store u { sess with separator := pyStrip text }))
    ∧ (¬(pyStrip text = [45] ∨ pyStrip text = [95]) →
      set_separator store u text = (.invalid, store)) :=
  ⟨fun hv => set_separator_valid store u text sess hu hv,
   fun hv => set_separator_invalid store u text hv⟩

/-- Witness for C2: user 1 has a session; `"_"` is accepted and stored,
`"x"` is rejected with the map unchanged. -/
theorem C2_set_separator_validation_witness :
    ((pyStrip (strToCodes "_") = [45] ∨ pyStrip (strToCodes "_") = [95]) →
      set_separator (updateStore emptyStore 1 defaultSession) 1 (strToCodes "_")
        = (.success, updateStore (updateStore emptyStore 1 defaultSession) 1
            { defaultSession with separator := pyStrip (strToCodes "_") }))
    ∧ (¬(pyStrip (strToCodes "_") = [45] ∨ pyStrip (strToCodes "_") = [95]) →
      set_separator (updateStore emptyStore 1 defaultSession) 1 (strToCodes "_")
        = (.invalid, updateStore emptyStore 1 defaultSession)) :=
  C2_set_separator_validation (updateStore emptyStore 1 defaultSession) 1
    (strToCodes "_") defaultSession rfl

/-- C3: when the translation provider fails, `handle_message` replies with the
generic error — independent of the provider's error detail — and every user's
effective separator and history are unchanged. -/
theorem C3_translation_failure_preserves_session (store : Store) (u : Nat)
    (text detail : List Nat) :
    (handle_message store u text (.error detail)).reply = .genericError
    ∧ ∀ v : Nat,
        sepOf (handle_message store u text (.error detail)).store v = sepOf store v
        ∧ historyOf (handle_message store u text (.error detail)).store v
            = historyOf store v := by
  constructor
  · cases hsu : store u <;>
      simp [handle_message, translate_and_format, hsu]
  · intro v
    cases hsu : store u with
    | some s =>
        simp [handle_message, translate_and_format, hsu]
    | none =>
        by_cases hv : v = u
        · subst hv
          simp [handle_message, translate_and_format, hsu, sepOf, historyOf,
            updateStore, defaultSession, histOf]
        · simp [handle_message, translate_and_format, hsu, sepOf, historyOf,
            updateStore, hv]

/-- C6: the separator-customization flow is the documented two-state machine:
`customize` enters `AWAITING_SEPARATOR`; from there `/cancel` returns to
`IDLE` with the session map untouched; a `"_"` message returns to `IDLE` and
stores `_`; any invalid text stays in `AWAITING_SEPARATOR` with the map
untouched. -/
theorem C6_conversation_flow (store : Store) (u : Nat) :
    conversationStep .IDLE store u .pressCustomize = .ok (.AWAITING_SEPARATOR, store)
    ∧ conversationStep .AWAITING_SEPARATOR store u .sendCancel = .ok (.IDLE, store)
    ∧ (∀ sess : UserSession, store u = some sess →
        conversationStep .AWAITING_SEPARATOR store u (.sendSeparatorText (strToCodes "_"))
          = .ok (.IDLE, updateStore store u { sess with separator := [95] }))
    ∧ (∀ text : List Nat, ¬(pyStrip text = [45] ∨ pyStrip text = [95]) →
        conversationStep .AWAITING_SEPARATOR store u (.sendSeparatorText text)
          = .ok (.AWAITING_SEPARATOR, store)) := by
  refine ⟨rfl, rfl, fun sess hu => ?_, fun text hv => ?_⟩
  · have h := set_separator_valid store u (strToCodes "_") sess hu (Or.inr rfl)
    have hstrip : pyStrip (strToCodes "_") = [95] := rfl
    rw [hstrip] at h
    simp only [conversationStep, h]
  · have h := set_separator_invalid store u text hv
    simp only [conversationStep, h]

/-- Witness for C6: all four transitions at a concrete store for user 1. -/
theorem C6_conversation_flow_witness :
    conversationStep .IDLE (updateStore emptyStore 1 defaultSession) 1 .pressCustomize
      = .ok (.AWAITING_SEPARATOR, updateStore emptyStore 1 defaultSession)
    ∧ conversationStep .AWAITING_SEPARATOR (updateStore emptyStore 1 defaultSession) 1
        .sendCancel = .ok (.IDLE, updateStore emptyStore 1 defaultSession)
    ∧ conversationStep .AWAITING_SEPARATOR (updateStore emptyStore 1 defaultSession) 1
        (.sendSeparatorText (strToCodes "_"))
      = .ok (.IDLE, updateStore (updateStore emptyStore 1 defaultSession) 1
          { defaultSession with separator := [95] })
    ∧ conversationStep .AWAITING_SEPARATOR (updateStore emptyStore 1 defaultSession) 1
        (.sendSeparatorText (strToCodes "xx"))
      = .ok (.AWAITING_SEPARATOR, updateStore emptyStore 1 defaultSession) :=
  ⟨(C6_conversation_flow (updateStore emptyStore 1 defaultSession) 1).1,
   (C6_conversation_flow (updateStore emptyStore 1 defaultSession) 1).2.1,
   (C6_conversation_flow (updateStore emptyStore 1 defaultSession) 1).2.2.1
     defaultSession rfl,
   (C6_conversation_flow (updateStore emptyStore 1 defaultSession) 1).2.2.2
     (strToCodes "xx") (by decide)⟩

/-- C7: sessions are isolated per user: `set_separator`, `handle_message` and
`reset_preferences` for user `u` leave every other user's stored session
untouched. -/
theorem C7_session_isolation (store : Store) (u v : Nat) (hne : v ≠ u) :
    (∀ text : List Nat, (set_separator store u text).2 v = store v)
    ∧ (∀ (text : List Nat) (translation : Except (List Nat) (List Nat)),
        (handle_message store u text translation).store v = store v)
    ∧ reset_preferences store u v = store v := by
  refine ⟨fun text => ?_, fun text translation => ?_, ?_⟩
  · by_cases h : (pyStrip text).length ≠ 1 ∨
        pyStrip text ∉ ([[45], [95]] : List (List Nat))
    · simp only [set_separator]
      rw [if_pos h]
    · simp only [set_separator]
      rw [if_neg h]
      cases hsu : store u <;> simp [updateStore, hne]
  · cases hsu : store u <;> cases translation <;>
      simp [handle_message, translate_and_format, hsu, updateStore, hne]
  · simp [reset_preferences, updateStore, hne]

/-- Witness for C7: operations for user 1 leave user 2's session untouched. -/
theorem C7_session_isolation_witness :
    (set_separator (updateStore emptyStore 2 defaultSession) 1 (strToCodes "_")).2 2
      = updateStore emptyStore 2 defaultSession 2
    ∧ (handle_message (updateStore emptyStore 2 defaultSession) 1 (strToCodes "hi")
        (.ok (strToCodes "Hi"))).store 2 = updateStore emptyStore 2 defaultSession 2
    ∧ reset_preferences (updateStore emptyStore 2 defaultSession) 1 2
      = updateStore emptyStore 2 defaultSession 2 :=
  ⟨(C7_session_isolation (updateStore emptyStore 2 defaultSession) 1 2 (by decide)).1
     (strToCodes "_"),
   (C7_session_isolation (updateStore emptyStore 2 defaultSession) 1 2 (by decide)).2.1
     (strToCodes "hi") (.ok (strToCodes "Hi")),
   (C7_session_isolation (updateStore emptyStore 2 defaultSession) 1 2 (by decide)).2.2⟩

/-- C8: storing a valid separator has the precondition that the user's session
exists: with no session, `set_separator` hits the uncaught key-lookup error
and nothing is stored, and the conversation step surfaces that error. -/
theorem C8_set_separator_requires_session (store : Store) (u : Nat)
    (text : List Nat) (hu : store u = none)
    (hv : pyStrip text = [45] ∨ pyStrip text = [95]) :
    set_separator store u text = (.keyError, store)
    ∧ conversationStep .AWAITING_SEPARATOR store u (.sendSeparatorText text)
      = .error .keyError := by
  have h := set_separator_no_session store u text hu hv
  exact ⟨h, by simp only [conversationStep, h]⟩

/-- Witness for C8: a fresh user sending `"-"` hits the key-lookup error. -/
theorem C8_set_separator_requires_session_witness :
    set_separator emptyStore 1 (strToCodes "-") = (.keyError, emptyStore)
    ∧ conversationStep .AWAITING_SEPARATOR emptyStore 1
        (.sendSeparatorText (strToCodes "-")) = .error .keyError :=
  C8_set_separator_requires_session emptyStore 1 (strToCodes "-") rfl (Or.inl rfl)

/-- C9: `reset_preferences` replaces the whole session with a fresh one: the
stored separator becomes `-` and the translation history becomes empty. -/
theorem C9_reset_preferences_fresh_session (store : Store) (u : Nat) :
    reset_preferences store u u = some defaultSession
    ∧ sepOf (reset_preferences store u) u = [45]
    ∧ historyOf (reset_preferences store u) u = [] := by
  refine ⟨?_, ?_, ?_⟩ <;>
    simp [reset_preferences, updateStore, sepOf, historyOf, defaultSession, histOf]

theorem dropWhile_append_all (p : Nat → Bool) (l1 l2 : List Nat)
    (h : ∀ x ∈ l1, p x = true) :
    (l1 ++ l2).dropWhile p = l2.dropWhile p := by
  induction l1 with
  | nil => rfl
  | cons a l1 ih =>
      rw [List.cons_append, List.dropWhile_cons,
        if_pos (h a (List.mem_cons_self a l1))]
      exact ih fun x hx => h x (List.mem_cons_of_mem _ hx)

theorem pyStrip_sandwich (ws1 ws2 : List Nat) (c : Nat)
    (h1 : ∀ x ∈ ws1, pyIsSpace x = true) (h2 : ∀ x ∈ ws2, pyIsSpace x = true)
    (hc : pyIsSpace c = false) :
    pyStrip (ws1 ++ c :: ws2) = [c] := by
  unfold pyStrip
  rw [dropWhile_append_all pyIsSpace ws1 (c :: ws2) h1, List.dropWhile_cons,
    if_neg (by rw [hc]; exact Bool.false_ne_true), List.reverse_cons,
    dropWhile_append_all pyIsSpace ws2.reverse [c]
      (fun x hx => h2 x (List.mem_reverse.mp hx)),
    List.dropWhile_cons, if_neg (by rw [hc]; exact Bool.false_ne_true)]
  rfl

/-- C10: the separator setter strips surrounding whitespace before
validating, so an allowed separator surrounded only by whitespace is accepted
and stored, even though the raw message is longer than one character. -/
theorem C10_strip_before_validation (store : Store) (u : Nat)
    (sess : UserSession) (ws1 ws2 : List Nat) (c : Nat)
    (hu : store u = some sess)
    (h1 : ∀ x ∈ ws1, pyIsSpace x = true) (h2 : ∀ x ∈ ws2, pyIsSpace x = true)
    (hc : c = 45 ∨ c = 95) :
    set_separator store u (ws1 ++ c :: ws2)
      = (.success, updateStore store u { sess with separator := [c] }) := by
  have hcs : pyIsSpace c = false := by
    rcases hc with h | h <;> subst h <;> rfl
  have hstrip : pyStrip (ws1 ++ c :: ws2) = [c] :=
    pyStrip_sandwich ws1 ws2 c h1 h2 hcs
  have hv : pyStrip (ws1 ++ c :: ws2) = [45] ∨ pyStrip (ws1 ++ c :: ws2) = [95] := by
    rw [hstrip]
    rcases hc with h | h <;> subst h
    · exact Or.inl rfl
    · exact Or.inr rfl
  rw [set_separator_valid store u _ sess hu hv, hstrip]

/-- Witness for C10: the three-character message `" - "` is accepted and
stores `-`. -/
theorem C10_strip_before_validation_witness :
    set_separator (updateStore emptyStore 1 defaultSession) 1 (strToCodes " - ")
      = (.success, updateStore (updateStore emptyStore 1 defaultSession) 1
          { defaultSession with separator := [45] })
    ∧ (strToCodes " - ").length = 3 :=
  ⟨C10_strip_before_validation (updateStore emptyStore 1 defaultSession) 1
      defaultSession [32] [32] 45 rfl (by decide) (by decide) (Or.inl rfl),
   rfl⟩
